import Mathlib

/-!
# Verification of the IAacademix backend (`src/main.py`)

A shallow embedding of the data-loading / normalization cache and the query
endpoint of the single-file FastAPI backend.  Python dictionaries are modelled
as association lists (first binding wins, as produced by the code), JSON
payloads as an inductive `Json` type, machine time (`time.time()`) as an
integer number of seconds, and network I/O as explicit parameters: a call to
`load_data` receives the `HttpResponse` that the network *would* return, and
reports in its outcome whether that response was actually requested.
-/

namespace IAacademix

/-- JSON values, as produced by `resp.json()` in the Python code.
Numbers are modelled as integers (no claim depends on fractional values). -/
inductive Json where
  | str (s : String)
  | num (n : Int)
  | bool (b : Bool)
  | null
  | arr (xs : List Json)
  | obj (fields : List (String × Json))

/-- Python truthiness (`if row[key]`, `if not html`) of a JSON value:
empty strings, zero, `False`, `None` and empty containers are falsy. -/
def Json.truthy : Json → Bool
  | .str s => s ≠ ""
  | .num n => n ≠ 0
  | .bool b => b
  | .null => false
  | .arr xs => !xs.isEmpty
  | .obj fs => !fs.isEmpty

mutual

/-- Python `str(...)` of a JSON value (`value = str(row[key])` in
`_normalize_row`).  On strings this is the identity; on other atoms it is the
Python rendering.  For containers Python renders a `repr`-style listing; the
model renders the elements without `repr` quoting — no claim exercises
container-valued record fields, all claims use string-valued fields where
`pyStr` is exact. -/
def Json.pyStr : Json → String
  | .str s => s
  | .num n => toString n
  | .bool true => "True"
  | .bool false => "False"
  | .null => "None"
  | .arr xs => "[" ++ String.intercalate ", " (Json.pyStrList xs) ++ "]"
  | .obj fs => "\x7b" ++ String.intercalate ", " (Json.pyStrFields fs) ++ "\x7d"

/-- Helper for `Json.pyStr`: render each element of an array. -/
def Json.pyStrList : List Json → List String
  | [] => []
  | x :: xs => x.pyStr :: Json.pyStrList xs

/-- Helper for `Json.pyStr`: render each field of an object. -/
def Json.pyStrFields : List (String × Json) → List String
  | [] => []
  | p :: fs => (p.1 ++ ": " ++ p.2.pyStr) :: Json.pyStrFields fs

end

/-! ### Python string primitives

The handful of `str` operations the code uses, modelled over the character
list of a `String` so that they evaluate inside the kernel. -/

/-- Python `s.lower()`. -/
def pyLower (s : String) : String := ⟨s.data.map Char.toLower⟩

/-- Python `s.endswith(suffix)`. -/
def strEndsWith (s suffix : String) : Bool := suffix.data.isSuffixOf s.data

/-- Python `pat in s` on strings: substring containment. -/
def containsSubstr (s pat : String) : Bool :=
  s.data.tails.any (fun t => pat.data.isPrefixOf t)

/-- Split a character list on a separator character; adjacent separators
yield empty pieces, like Python `s.split(sep)` with a one-character `sep`. -/
def splitChars (c : Char) : List Char → List (List Char)
  | [] => [[]]
  | x :: xs =>
    let r := splitChars c xs
    if x = c then [] :: r
    else
      match r with
      | h :: t => (x :: h) :: t
      | [] => [[x]]

/-- Split a string on a separator character. -/
def splitOnChar (c : Char) (s : String) : List String :=
  (splitChars c s.data).map (fun l => ⟨l⟩)

/-- Lookup in an object's field list: Python `d[k]` / `k in d` on a dict,
with the first binding for a key the authoritative one. -/
def lookupField (fs : List (String × Json)) (k : String) : Option Json :=
  (fs.find? (fun p => p.1 == k)).map (fun p => p.2)

/-- A raw source record (one row of the CSV file, or one element of the JSON
list): a Python dict, modelled as an association list. -/
abbrev RawRow := List (String × Json)

/-- `key in row` followed by `row[key]`. -/
def RawRow.find (row : RawRow) (k : String) : Option Json := lookupField row k

/-- A normalized tool record: the dict built by `_normalize_row`, whose
insertion order is the canonical field order. -/
abbrev ToolRecord := List (String × String)

/-- `REQUIRED_COLS` (line 28 of `src/main.py`): the canonical field names, in
canonical order.  These are the source-side spellings of the spec fields
`name`, `difficulty_level`, `subcategory`, `description`, `link`,
`tutorial`. -/
def REQUIRED_COLS : List String :=
  ["nombre", "nivel de dificultad", "subcategoria", "descripción", "enlace", "tutorial"]

/-- The alias table `mapping` of `_normalize_row` (lines 31-38), in source
order: each canonical field with its ordered list of accepted source
spellings. -/
def mapping : List (String × List String) :=
  [ ("nombre", ["nombre", "Nombre", "NOMBRE", "Nombre de la herramienta"]),
    ("nivel de dificultad", ["nivel de dificultad", "nivel", "Nivel", "Nivel de dificultad"]),
    ("subcategoria", ["subcategoria", "Subcategoria", "SUBCATEGORIA", "Subcategorías"]),
    ("descripción", ["descripción", "descripcion", "Descripcion", "Descripción"]),
    ("enlace", ["enlace", "link", "URL", "Link"]),
    ("tutorial", ["tutorial", "Tutorial"]) ]

/-- Does alias `k` match in `row`: `k in row and row[k]` (present with a
truthy value, exact case-sensitive key comparison). -/
def aliasMatches (row : RawRow) (k : String) : Bool :=
  match row.find k with
  | some v => v.truthy
  | none => false

/-- The inner loop of `_normalize_row` (lines 41-45): start from `""`, take
the first alias present with a truthy value, `str()` it, and stop. -/
def resolveField (row : RawRow) : List String → String
  | [] => ""
  | k :: rest =>
    match row.find k with
    | some v => if v.truthy then v.pyStr else resolveField row rest
    | none => resolveField row rest

/-- `_normalize_row` (lines 30-47): build the normalized record by resolving
every canonical field of the alias table, in table order. -/
def normalizeRow (row : RawRow) : ToolRecord :=
  mapping.map (fun p => (p.1, resolveField row p.2))

/-! ## CSV parsing (`csv.DictReader(StringIO(resp.text))`, lines 71-73) -/

/-- The lines of the response text, as iterated by `csv.DictReader`:
split on newlines, tolerate a trailing carriage return, and skip blank
lines (the reader yields no row for them). -/
def csvLines (text : String) : List String :=
  (((splitChars '\n' text.data).map
    (fun l => if l.getLast? = some '\r' then l.dropLast else l)).filter
      (fun l => l ≠ [])).map (fun l => ⟨l⟩)

/-- One CSV line split into fields.  The model covers unquoted CSV (plain
comma separation); no claim depends on quoted or escaped fields. -/
def splitCsvLine (line : String) : List String := splitOnChar ',' line

/-- `csv.DictReader`: the first line is the header, every further line a
record pairing header names with field values.  `zip` truncates rows that are
shorter or longer than the header; in Python the missing values are `None`
(falsy, hence invisible to alias resolution) and the extra values live under
the `None` rest-key (likewise invisible), so normalization agrees. -/
def parseCsv (text : String) : List RawRow :=
  match csvLines text with
  | [] => []
  | header :: rest =>
    let keys := splitCsvLine header
    rest.map (fun line => keys.zip ((splitCsvLine line).map Json.str))

/-! ## The dataset cache (`_cache` and `load_data`, lines 26 and 49-77) -/

/-- The environment configuration read at process start:
`DATA_URL` (line 10) and `CACHE_TTL_SECONDS` (line 13). -/
structure Config where
  dataUrl : String
  cacheTtlSeconds : Int

/-- The process-wide cache `_cache = {"ts": 0, "rows": []}` (line 26). -/
structure CacheState where
  ts : Int
  rows : List ToolRecord

/-- The cache at process start (line 26). -/
def initialCache : CacheState := ⟨0, []⟩

/-- What the network returns for `requests.get(DATA_URL)`: the status code,
the body parsed as JSON when it is valid JSON (`resp.json()` raises
otherwise, modelled by `none`), and the body text (`resp.text`). -/
structure HttpResponse where
  status : Nat
  jsonBody : Option Json
  text : String

/-- The failures of `load_data`, classified per the raise sites of the code:
missing `DATA_URL` (line 55), non-200 download status (line 59), the invalid
JSON shapes (line 67 and an undecodable body at line 63), and the Python
`TypeError` that `_normalize_row` raises on a non-dict JSON list element. -/
inductive LoadError where
  | configError (msg : String)
  | fetchError (status : Nat) (msg : String)
  | parseError (msg : String)
  | typeError (msg : String)
  deriving DecidableEq

/-- The human-readable message of a load error, as interpolated into the
HTTP `detail` fields. -/
def LoadError.message : LoadError → String
  | .configError m => m
  | .fetchError _ m => m
  | .parseError m => m
  | .typeError m => m

instance {ε α : Type} [DecidableEq ε] [DecidableEq α] : DecidableEq (Except ε α) :=
  fun a b =>
    match a, b with
    | .ok x, .ok y =>
      if h : x = y then isTrue (by rw [h]) else isFalse (fun hc => h (Except.ok.inj hc))
    | .ok _, .error _ => isFalse (fun hc => Except.noConfusion hc)
    | .error _, .ok _ => isFalse (fun hc => Except.noConfusion hc)
    | .error x, .error y =>
      if h : x = y then isTrue (by rw [h]) else isFalse (fun hc => h (Except.error.inj hc))

/-- The outcome of one `load_data` call: the returned rows or the raised
error, the cache state after the call, and whether `requests.get` ran. -/
structure LoadOutcome where
  result : Except LoadError (List ToolRecord)
  cache : CacheState
  fetched : Bool

/-- Lines 66-69: require the (possibly unwrapped) payload to be a list and
normalize every element.  A list element that is not an object makes
`_normalize_row` raise in Python (`TypeError` from `key in row`, for every
non-string element; the model also rejects string elements, which no claim
exercises). -/
def jsonListToRows (data : Json) : Except LoadError (List ToolRecord) :=
  match data with
  | .arr xs =>
    xs.mapM (fun r =>
      match r with
      | .obj fs => Except.ok (normalizeRow fs)
      | _ => Except.error (LoadError.typeError "argument of type is not iterable"))
  | _ => Except.error (LoadError.parseError
      "JSON inválido: se esperaba lista o clave \x27herramientas\x27")

/-- Lines 63-69: take `resp.json()`, unwrap a dict under its
`"herramientas"` key when it has one, then require a list and normalize
every element. -/
def jsonToRows (data : Json) : Except LoadError (List ToolRecord) :=
  match data with
  | .obj fs =>
    match lookupField fs "herramientas" with
    | some v => jsonListToRows v
    | none => jsonListToRows (Json.obj fs)
  | other => jsonListToRows other

/-- The JSON side of lines 62-69: `resp.json()` (raising a decode error on a
body that is not valid JSON, modelled by `none`) followed by the shape
handling of `jsonToRows`. -/
def parseJsonPayload (body : Option Json) : Except LoadError (List ToolRecord) :=
  match body with
  | none => .error (.parseError "Expecting value: invalid JSON body")
  | some data => jsonToRows data

/-- `load_data` (lines 49-77), as a pure transition: given the configuration,
the cache state, the current time `now = time.time()`, the response the
network would serve, and the `force` flag, produce the outcome.  The fresh
cache is returned untouched without any fetch; otherwise the URL check, the
status check, the format dispatch on the URL suffix, and on success the
wholesale cache replacement with timestamp `now`. -/
def load_data (cfg : Config) (st : CacheState) (now : Int) (resp : HttpResponse)
    (force : Bool) : LoadOutcome :=
  if force = false ∧ st.rows ≠ [] ∧ now - st.ts < cfg.cacheTtlSeconds then
    ⟨.ok st.rows, st, false⟩
  else if cfg.dataUrl = "" then
    ⟨.error (.configError "No se configuró DATA_URL"), st, false⟩
  else if resp.status ≠ 200 then
    ⟨.error (.fetchError resp.status
        ("No se pudo descargar datos (" ++ toString resp.status ++ ")")), st, true⟩
  else if strEndsWith (pyLower cfg.dataUrl) ".json" then
    match parseJsonPayload resp.jsonBody with
    | .ok rows => ⟨.ok rows, ⟨now, rows⟩, true⟩
    | .error e => ⟨.error e, st, true⟩
  else
    let rows := (parseCsv resp.text).map normalizeRow
    ⟨.ok rows, ⟨now, rows⟩, true⟩

/-- The format the code actually selects by URL (line 62): `.json` suffix,
case-insensitively, means JSON; everything else goes to `csv.DictReader`. -/
inductive SourceFormat where
  | json
  | csv
  deriving DecidableEq

/-- The classification `load_data` dispatches on (line 62). -/
def classifyFormat (url : String) : SourceFormat :=
  if strEndsWith (pyLower url) ".json" then .json else .csv

/-- The three formats the specification describes for format selection. -/
inductive SpecSourceFormat where
  | json
  | delimitedText
  | spreadsheet
  deriving DecidableEq

/-- Modelled from the spec: format selection as §4.1 step 3 words it — a URL
ending in `.json` is JSON; one ending in `.csv` or containing a csv-output
query hint is delimited text; any other URL is a spreadsheet binary format. -/
def classifyFormatSpec (url : String) : SpecSourceFormat :=
  if strEndsWith (pyLower url) ".json" then .json
  else if strEndsWith (pyLower url) ".csv" ∨ containsSubstr (pyLower url) "csv" then
    .delimitedText
  else .spreadsheet

/-- The spec-side reading of each format the code implements. -/
def SourceFormat.toSpec : SourceFormat → SpecSourceFormat
  | .json => SpecSourceFormat.json
  | .csv => SpecSourceFormat.delimitedText

/-- One inbound `load_data` call of a trace: its wall-clock time, the
response the network would serve it, and its `force` flag. -/
structure CallInput where
  now : Int
  resp : HttpResponse
  force : Bool

/-- A sequence of `load_data` calls from a starting cache state, threading
the process-wide cache through, collecting every outcome. -/
def runCalls (cfg : Config) : CacheState → List CallInput → CacheState × List LoadOutcome
  | st, [] => (st, [])
  | st, c :: cs =>
    let o := load_data cfg st c.now c.resp c.force
    let r := runCalls cfg o.cache cs
    (r.1, o :: r.2)

/-! ## The `/consulta` endpoint (lines 94-144) -/

/-- Dict access `r[k]` on a normalized record (lines 104).  Every record the
cache produces carries all six keys, so the `""` default of the model is
never taken on cache rows; Python would raise `KeyError` there. -/
def getField (r : ToolRecord) (k : String) : String :=
  ((r.find? (fun p => p.1 == k)).map (fun p => p.2)).getD ""

/-- The f-string of lines 104: one pipe-delimited line per record, fields in
canonical order. -/
def rowLine (r : ToolRecord) : String :=
  getField r "nombre" ++ " | " ++ getField r "nivel de dificultad" ++ " | " ++
  getField r "subcategoria" ++ " | " ++ getField r "descripción" ++ " | " ++
  getField r "enlace" ++ " | " ++ getField r "tutorial"

/-- `listado` (lines 103-106): every row serialized, joined by newlines. -/
def listado (rows : List ToolRecord) : String :=
  String.intercalate "\n" (rows.map rowLine)

/-- `system_prompt` (lines 108-113). -/
def systemPrompt : String :=
  "Eres un experto en herramientas de inteligencia artificial. " ++
  "Responde únicamente con una TABLA HTML que contenga: " ++
  "nombre, nivel de dificultad, subcategoria, descripción, enlace y tutorial. " ++
  "Las filas deben provenir del listado dado."

/-- `user_prompt` (lines 115-119). -/
def userPrompt (rows : List ToolRecord) (mensaje : String) : String :=
  "Estas son las herramientas:\n" ++ listado rows ++ "\n\n" ++
  "El usuario dice: \"" ++ mensaje ++ "\".\n\n" ++
  "Devuelve SOLO la tabla HTML (sin <html>, sin markdown)."

/-- The JSON body posted to the chat-completion endpoint (lines 128-134):
the model identifier and the two-message conversation. -/
structure ChatRequest where
  model : String
  messages : List (String × String)

/-- Build the outbound chat request from the rows and the user message. -/
def buildChatRequest (model : String) (rows : List ToolRecord) (mensaje : String) :
    ChatRequest :=
  ⟨model, [("system", systemPrompt), ("user", userPrompt rows mensaje)]⟩

/-- What the remote chat-completion call produces: a transport-level failure
(`requests.post` raises) or a response with a status and a JSON view of the
body (`none` when `resp.json()` would raise). -/
inductive LlmOutcome where
  | transportError (msg : String)
  | response (status : Nat) (jsonBody : Option Json)

/-- Python `d.get(k, default)` (line 139): on a dict, the value or the
default; on any other value an `AttributeError`. -/
def pyGet (j : Json) (k : String) (deflt : Json) : Except String Json :=
  match j with
  | .obj fs => Except.ok ((lookupField fs k).getD deflt)
  | _ => Except.error "AttributeError: object has no attribute get"

/-- Python `xs[0]` (line 139) on the extracted choices: the head of a list,
`IndexError` on an empty list, and an error on any non-list (in Python a
non-list either fails at `[0]` or at the following `.get`; the model reports
the failure at the subscript). -/
def pyIndexZero (j : Json) : Except String Json :=
  match j with
  | .arr (x :: _) => Except.ok x
  | .arr [] => Except.error "IndexError: list index out of range"
  | _ => Except.error "TypeError: object is not subscriptable"

/-- Line 139: `data.get("choices", [{}])[0].get("message", {}).get("content", "")`. -/
def extractHtml (data : Json) : Except String Json := do
  let choices ← pyGet data "choices" (Json.arr [Json.obj []])
  let first ← pyIndexZero choices
  let message ← pyGet first "message" (Json.obj [])
  pyGet message "content" (Json.str "")

/-- What an endpoint handler hands the framework: a success body, or an
`HTTPException` with a status and a `detail` message. -/
inductive EndpointResult where
  | ok (body : Json)
  | httpError (status : Nat) (detail : String)

/-- Lines 121-144: the tail of `consulta` from the chat-completion call on.
`raise_for_status()` raises for any 4xx/5xx status; then the body is parsed,
the content extracted, rejected when falsy (`if not html`), and otherwise
returned verbatim as `{"html": html}`.  Every raised error is caught by the
`except` and turned into a 500 with the message in `detail`. -/
def consultaLlmStep (outcome : LlmOutcome) : EndpointResult :=
  match outcome with
  | .transportError msg => .httpError 500 ("Error al consultar modelo: " ++ msg)
  | .response status body =>
    if 400 ≤ status ∧ status < 600 then
      .httpError 500 ("Error al consultar modelo: HTTP " ++ toString status)
    else
      match body with
      | none => .httpError 500 "Error al consultar modelo: Expecting value"
      | some data =>
        match extractHtml data with
        | .error e => .httpError 500 ("Error al consultar modelo: " ++ e)
        | .ok html =>
          if html.truthy then .ok (.obj [("html", html)])
          else .httpError 500 "Error al consultar modelo: Respuesta vacía del modelo"

/-- `consulta` (lines 94-144): the API-key guard, the dataset load (its
outcome passed in, as produced by `load_data`), and the chat-completion
step on the rows. -/
def consulta (apiKey : String) (loadResult : Except LoadError (List ToolRecord))
    (outcome : LlmOutcome) : EndpointResult :=
  if apiKey = "" then .httpError 500 "OPENROUTER_API_KEY no configurada"
  else
    match loadResult with
    | .error e => .httpError 500 ("Error cargando datos: " ++ e.message)
    | .ok _ => consultaLlmStep outcome

/-! ## Theorems -/

/-- Alias resolution yields the empty string when no alias of the list is
present with a truthy value. -/
lemma resolveField_eq_empty (row : RawRow) (aliases : List String)
    (h : ∀ k ∈ aliases, aliasMatches row k = false) :
    resolveField row aliases = "" := by
  induction aliases with
  | nil => rfl
  | cons k rest ih =>
    have hk := h k (by simp)
    have hrest : ∀ k2 ∈ rest, aliasMatches row k2 = false :=
      fun k2 hk2 => h k2 (List.mem_cons_of_mem _ hk2)
    unfold resolveField
    unfold aliasMatches at hk
    cases hfind : row.find k with
    | none =>
      simp only [hfind]
      exact ih hrest
    | some v =>
      simp only [hfind] at hk
      simp only [hfind, hk, if_false]
      exact ih hrest

/-- Alias resolution returns the `str()` of the value of the first alias
that is present with a truthy value. -/
lemma resolveField_first_match (row : RawRow) (pre post : List String)
    (k : String) (v : Json)
    (hpre : ∀ k2 ∈ pre, aliasMatches row k2 = false)
    (hfind : row.find k = some v) (hv : v.truthy = true) :
    resolveField row (pre ++ k :: post) = v.pyStr := by
  induction pre with
  | nil =>
    simp only [List.nil_append]
    unfold resolveField
    simp only [hfind, hv, if_true]
  | cons k2 rest ih =>
    have hk2 := hpre k2 (by simp)
    have hrest : ∀ k3 ∈ rest, aliasMatches row k3 = false :=
      fun k3 hk3 => hpre k3 (List.mem_cons_of_mem _ hk3)
    simp only [List.cons_append]
    unfold resolveField
    unfold aliasMatches at hk2
    cases hfind2 : row.find k2 with
    | none =>
      simp only [hfind2]
      exact ih hrest
    | some v2 =>
      simp only [hfind2] at hk2
      simp only [hfind2, hk2, if_false]
      exact ih hrest

/-- C1: every raw source record normalizes to a record with exactly the six
canonical string-valued keys in canonical order (`REQUIRED_COLS`, the
source-side spellings of `name`, `difficulty_level`, `subcategory`,
`description`, `link`, `tutorial`), and every field none of whose aliases
matches is present with the empty string as its value, never absent. -/
theorem c1_normalized_record_shape (row : RawRow) :
    (normalizeRow row).map Prod.fst = REQUIRED_COLS ∧
    ∀ target aliases, (target, aliases) ∈ mapping →
      (∀ k ∈ aliases, aliasMatches row k = false) →
      (target, "") ∈ normalizeRow row := by
  constructor
  · rfl
  · intro target aliases hmem hnone
    have hmap : (target, resolveField row aliases) ∈ normalizeRow row :=
      List.mem_map_of_mem (fun p => (p.1, resolveField row p.2)) hmem
    rwa [resolveField_eq_empty row aliases hnone] at hmap

/-- Witness for C1 on a concrete record that only provides a name: the keys
come out canonical, and the unmatched `tutorial` field is present, empty. -/
theorem c1_normalized_record_shape_witness :
    (normalizeRow [("Nombre", Json.str "Foo")]).map Prod.fst = REQUIRED_COLS ∧
    ("tutorial", "") ∈ normalizeRow [("Nombre", Json.str "Foo")] :=
  ⟨(c1_normalized_record_shape [("Nombre", Json.str "Foo")]).1,
   (c1_normalized_record_shape [("Nombre", Json.str "Foo")]).2
     "tutorial" ["tutorial", "Tutorial"] (by decide) (by decide)⟩

/-- C4: alias resolution assigns the value of the first alias of the
field's ordered alias list that is present in the record with a truthy
(non-empty) value — keys compared by exact, case-sensitive string equality,
the matched value rendered through `str()` — and the empty string when no
alias matches. -/
theorem c4_alias_resolution_order (row : RawRow) :
    (∀ (pre post : List String) (k : String) (v : Json),
      (∀ k2 ∈ pre, aliasMatches row k2 = false) →
      row.find k = some v → v.truthy = true →
      resolveField row (pre ++ k :: post) = v.pyStr) ∧
    (∀ aliases : List String,
      (∀ k ∈ aliases, aliasMatches row k = false) →
      resolveField row aliases = "") :=
  ⟨fun pre post k v hpre hfind hv => resolveField_first_match row pre post k v hpre hfind hv,
   fun aliases h => resolveField_eq_empty row aliases h⟩

/-- Witness for C4 on a concrete record: the alias `nombre` is present but
empty, so resolution of the `nombre` field skips it and takes the later
alias `Nombre`; and the `tutorial` field, with no alias present, resolves to
the empty string. -/
theorem c4_alias_resolution_order_witness :
    resolveField [("nombre", Json.str ""), ("Nombre", Json.str "Foo")]
      (["nombre"] ++ "Nombre" :: ["NOMBRE", "Nombre de la herramienta"]) = "Foo" ∧
    resolveField [("nombre", Json.str ""), ("Nombre", Json.str "Foo")]
      ["tutorial", "Tutorial"] = "" :=
  ⟨(c4_alias_resolution_order [("nombre", Json.str ""), ("Nombre", Json.str "Foo")]).1
     ["nombre"] ["NOMBRE", "Nombre de la herramienta"] "Nombre" (Json.str "Foo")
     (by decide) rfl (by decide),
   (c4_alias_resolution_order [("nombre", Json.str ""), ("Nombre", Json.str "Foo")]).2
     ["tutorial", "Tutorial"] (by decide)⟩

/-- Whenever the cache-freshness test fails and a URL is configured,
`load_data` reaches `requests.get`: a fetch happens. -/
lemma load_data_fetches (cfg : Config) (st : CacheState) (now : Int)
    (resp : HttpResponse) (force : Bool)
    (hmiss : ¬(force = false ∧ st.rows ≠ [] ∧ now - st.ts < cfg.cacheTtlSeconds))
    (hurl : cfg.dataUrl ≠ "") :
    (load_data cfg st now resp force).fetched = true := by
  unfold load_data
  rw [if_neg hmiss, if_neg hurl]
  by_cases hs : resp.status ≠ 200
  · rw [if_pos hs]
  · rw [if_neg hs]
    by_cases hj : strEndsWith (pyLower cfg.dataUrl) ".json" = true
    · rw [if_pos hj]
      cases parseJsonPayload resp.jsonBody with
      | ok rows => rfl
      | error e => rfl
    · rw [if_neg hj]

/-- Whenever `load_data` raises, the cache is left exactly as it was. -/
lemma load_data_error_keeps_cache (cfg : Config) (st : CacheState) (now : Int)
    (resp : HttpResponse) (force : Bool) (e : LoadError)
    (h : (load_data cfg st now resp force).result = .error e) :
    (load_data cfg st now resp force).cache = st := by
  unfold load_data at h ⊢
  by_cases h1 : force = false ∧ st.rows ≠ [] ∧ now - st.ts < cfg.cacheTtlSeconds
  · rw [if_pos h1] at h
    exact absurd h (by simp)
  · rw [if_neg h1] at h ⊢
    by_cases h2 : cfg.dataUrl = ""
    · rw [if_pos h2]
    · rw [if_neg h2] at h ⊢
      by_cases h3 : resp.status ≠ 200
      · rw [if_pos h3]
      · rw [if_neg h3] at h ⊢
        by_cases h4 : strEndsWith (pyLower cfg.dataUrl) ".json" = true
        · rw [if_pos h4] at h ⊢
          cases hp : parseJsonPayload resp.jsonBody with
          | ok rows =>
            rw [hp] at h
            exact absurd h (by simp)
          | error e2 => rfl
        · rw [if_neg h4] at h
          exact absurd h (by simp)

/-- C2: with `force` false, a non-empty cached row set and a cache age
strictly below the TTL, `load_data` returns the cached rows and performs no
network fetch, leaving the cache untouched; with `force` true, or once the
TTL has expired, a configured URL is fetched again. -/
theorem c2_ttl_cache_behavior (cfg : Config) (st : CacheState) (now : Int)
    (resp : HttpResponse) :
    (st.rows ≠ [] → now - st.ts < cfg.cacheTtlSeconds →
      load_data cfg st now resp false = ⟨.ok st.rows, st, false⟩) ∧
    (cfg.dataUrl ≠ "" → ∀ force : Bool,
      force = true ∨ cfg.cacheTtlSeconds ≤ now - st.ts →
      (load_data cfg st now resp force).fetched = true) := by
  constructor
  · intro h1 h2
    unfold load_data
    rw [if_pos ⟨rfl, h1, h2⟩]
  · intro hurl force hf
    apply load_data_fetches cfg st now resp force _ hurl
    rintro ⟨hforce, -, httl⟩
    rcases hf with hf | hf
    · rw [hf] at hforce
      exact absurd hforce (by decide)
    · exact absurd httl (not_lt.mpr hf)

/-- Witness for C2: a fresh, populated cache is served unchanged without a
fetch; a forced call and an expired cache both fetch. -/
theorem c2_ttl_cache_behavior_witness :
    load_data ⟨"http://x/a.csv", 300⟩ ⟨100, [[("nombre", "Foo")]]⟩ 150
        ⟨200, none, "nombre\nBar"⟩ false =
      ⟨.ok [[("nombre", "Foo")]], ⟨100, [[("nombre", "Foo")]]⟩, false⟩ ∧
    (load_data ⟨"http://x/a.csv", 300⟩ ⟨100, [[("nombre", "Foo")]]⟩ 150
        ⟨200, none, "nombre\nBar"⟩ true).fetched = true ∧
    (load_data ⟨"http://x/a.csv", 300⟩ ⟨100, [[("nombre", "Foo")]]⟩ 400
        ⟨200, none, "nombre\nBar"⟩ false).fetched = true :=
  ⟨(c2_ttl_cache_behavior ⟨"http://x/a.csv", 300⟩ ⟨100, [[("nombre", "Foo")]]⟩ 150
      ⟨200, none, "nombre\nBar"⟩).1 (by decide) (by decide),
   (c2_ttl_cache_behavior ⟨"http://x/a.csv", 300⟩ ⟨100, [[("nombre", "Foo")]]⟩ 150
      ⟨200, none, "nombre\nBar"⟩).2 (by decide) true (Or.inl rfl),
   (c2_ttl_cache_behavior ⟨"http://x/a.csv", 300⟩ ⟨100, [[("nombre", "Foo")]]⟩ 400
      ⟨200, none, "nombre\nBar"⟩).2 (by decide) false (Or.inr (by decide))⟩

/-- C3: a failing refresh raises to the caller and never touches the cache:
any erroring `load_data` call leaves the cached rows and timestamp exactly
as they were; a refresh hitting a non-200 status raises the fetch error
carrying that status code; a refresh of a `.json` URL whose body does not
decode raises the parse error.  There is no fallback to stale data. -/
theorem c3_failed_refresh_keeps_cache (cfg : Config) (st : CacheState) (now : Int)
    (resp : HttpResponse) (force : Bool) :
    (∀ e : LoadError, (load_data cfg st now resp force).result = .error e →
      (load_data cfg st now resp force).cache = st) ∧
    (¬(force = false ∧ st.rows ≠ [] ∧ now - st.ts < cfg.cacheTtlSeconds) →
      cfg.dataUrl ≠ "" → resp.status ≠ 200 →
      (load_data cfg st now resp force).result = .error (.fetchError resp.status
        ("No se pudo descargar datos (" ++ toString resp.status ++ ")"))) ∧
    (¬(force = false ∧ st.rows ≠ [] ∧ now - st.ts < cfg.cacheTtlSeconds) →
      cfg.dataUrl ≠ "" → resp.status = 200 →
      strEndsWith (pyLower cfg.dataUrl) ".json" = true → resp.jsonBody = none →
      (load_data cfg st now resp force).result =
        .error (.parseError "Expecting value: invalid JSON body")) := by
  refine ⟨fun e h => load_data_error_keeps_cache cfg st now resp force e h, ?_, ?_⟩
  · intro hmiss hurl hs
    unfold load_data
    rw [if_neg hmiss, if_neg hurl, if_pos hs]
  · intro hmiss hurl hs hj hb
    unfold load_data
    rw [if_neg hmiss, if_neg hurl, if_neg (by simp [hs]), if_pos hj, hb]
    rfl

/-- Witness for C3: a 404 on a forced refresh raises the fetch error with
the status code and leaves the populated cache exactly as it was. -/
theorem c3_failed_refresh_keeps_cache_witness :
    (load_data ⟨"http://x/a.csv", 300⟩ ⟨100, [[("nombre", "Foo")]]⟩ 150
        ⟨404, none, ""⟩ true).result =
      .error (.fetchError 404 "No se pudo descargar datos (404)") ∧
    (load_data ⟨"http://x/a.csv", 300⟩ ⟨100, [[("nombre", "Foo")]]⟩ 150
        ⟨404, none, ""⟩ true).cache = ⟨100, [[("nombre", "Foo")]]⟩ := by
  have h := c3_failed_refresh_keeps_cache ⟨"http://x/a.csv", 300⟩
    ⟨100, [[("nombre", "Foo")]]⟩ 150 ⟨404, none, ""⟩ true
  have hr := h.2.1 (by simp) (by decide) (by decide)
  exact ⟨hr, h.1 _ hr⟩

/-- C10: with an empty cached row set, every call fetches — the freshness
test requires a non-empty cached row set, so an empty result is never served
from the cache, whatever `force` and however recent the cached timestamp. -/
theorem c10_empty_cache_always_fetches (cfg : Config) (st : CacheState) (now : Int)
    (resp : HttpResponse) (force : Bool)
    (hurl : cfg.dataUrl ≠ "") (hrows : st.rows = []) :
    (load_data cfg st now resp force).fetched = true := by
  apply load_data_fetches cfg st now resp force _ hurl
  rintro ⟨-, hne, -⟩
  exact hne hrows

/-- Witness for C10: an empty cache with a fresh timestamp and `force`
false still fetches. -/
theorem c10_empty_cache_always_fetches_witness :
    (load_data ⟨"http://x/a.csv", 300⟩ ⟨100, []⟩ 110
        ⟨200, none, "nombre\nFoo"⟩ false).fetched = true :=
  c10_empty_cache_always_fetches ⟨"http://x/a.csv", 300⟩ ⟨100, []⟩ 110
    ⟨200, none, "nombre\nFoo"⟩ false (by decide) rfl

/-- A `load_data` call with an empty cached row set and no configured URL
raises the configuration error without fetching and without touching the
cache. -/
lemma load_data_no_url (cfg : Config) (st : CacheState) (now : Int)
    (resp : HttpResponse) (force : Bool)
    (hrows : st.rows = []) (hurl : cfg.dataUrl = "") :
    load_data cfg st now resp force =
      ⟨.error (.configError "No se configuró DATA_URL"), st, false⟩ := by
  unfold load_data
  rw [if_neg (by rintro ⟨-, hne, -⟩; exact hne hrows), if_pos hurl]

/-- C7: with no source URL configured, every call of any trace starting at
the process-start cache fails with the configuration error (and never
fetches): the cache can only ever be populated by a successful load, which
the missing URL rules out. -/
theorem c7_no_url_always_config_error (cfg : Config) (hurl : cfg.dataUrl = "")
    (calls : List CallInput) :
    ∀ o ∈ (runCalls cfg initialCache calls).2,
      o.result = .error (.configError "No se configuró DATA_URL") ∧
      o.fetched = false := by
  suffices h : ∀ (calls : List CallInput) (st : CacheState), st.rows = [] →
      ∀ o ∈ (runCalls cfg st calls).2,
        o.result = .error (.configError "No se configuró DATA_URL") ∧ o.fetched = false from
    h calls initialCache rfl
  intro calls
  induction calls with
  | nil =>
    intro st hrows o ho
    simp [runCalls] at ho
  | cons c cs ih =>
    intro st hrows o ho
    rw [runCalls] at ho
    simp only [List.mem_cons] at ho
    have hstep := load_data_no_url cfg st c.now c.resp c.force hrows hurl
    rcases ho with ho | ho
    · rw [ho, hstep]
      exact ⟨rfl, rfl⟩
    · rw [hstep] at ho
      exact ih st hrows o ho

/-- Witness for C7: a concrete two-call trace with no URL configured, one
forced and one not, where the first call already reports the configuration
error. -/
theorem c7_no_url_always_config_error_witness :
    (load_data ⟨"", 300⟩ initialCache 100 ⟨200, none, "nombre\nFoo"⟩ true).result =
      .error (.configError "No se configuró DATA_URL") :=
  (c7_no_url_always_config_error ⟨"", 300⟩ rfl
    [⟨100, ⟨200, none, "nombre\nFoo"⟩, true⟩, ⟨101, ⟨200, none, "nombre\nFoo"⟩, false⟩]
    (load_data ⟨"", 300⟩ initialCache 100 ⟨200, none, "nombre\nFoo"⟩ true)
    (by simp [runCalls])).1

/-- C5, counterexample to the claim as stated: the code has no spreadsheet
branch.  A URL ending in neither `.json` nor `.csv` (and carrying no
csv-output hint), here `tools.xlsx`, is classified as a spreadsheet by the
spec wording but is fed to the delimited-text (CSV) parser by the code, as
the concrete `load_data` run shows. -/
theorem c5_spreadsheet_counterexample :
    classifyFormatSpec "https://example.com/tools.xlsx" = SpecSourceFormat.spreadsheet ∧
    (classifyFormat "https://example.com/tools.xlsx").toSpec =
      SpecSourceFormat.delimitedText ∧
    (load_data ⟨"https://example.com/tools.xlsx", 300⟩ initialCache 100
        ⟨200, none, "nombre,enlace\nFoo,http://x"⟩ true).result =
      .ok [[("nombre", "Foo"), ("nivel de dificultad", ""), ("subcategoria", ""),
            ("descripción", ""), ("enlace", "http://x"), ("tutorial", "")]] :=
  ⟨by decide, by decide, by decide⟩

/-- C5, amended: format selection is determined by the URL — a URL whose
lowercased form ends in `.json` is parsed as JSON (`resp.json()` plus the
shape handling), and every other URL, `.csv` or not, is parsed as delimited
text by `csv.DictReader`; the implementation has no spreadsheet format. -/
theorem c5_format_dispatch (cfg : Config) (st : CacheState) (now : Int)
    (resp : HttpResponse) (force : Bool)
    (hmiss : ¬(force = false ∧ st.rows ≠ [] ∧ now - st.ts < cfg.cacheTtlSeconds))
    (hurl : cfg.dataUrl ≠ "") (hstatus : resp.status = 200) :
    (classifyFormat cfg.dataUrl = SourceFormat.json →
      (load_data cfg st now resp force).result = parseJsonPayload resp.jsonBody) ∧
    (classifyFormat cfg.dataUrl = SourceFormat.csv →
      (load_data cfg st now resp force).result =
        .ok ((parseCsv resp.text).map normalizeRow)) := by
  constructor
  · intro hj
    have hj2 : strEndsWith (pyLower cfg.dataUrl) ".json" = true := by
      by_contra hb
      simp only [classifyFormat, hb, if_false] at hj
      exact SourceFormat.noConfusion hj
    unfold load_data
    rw [if_neg hmiss, if_neg hurl, if_neg (by simp [hstatus]), if_pos hj2]
    cases parseJsonPayload resp.jsonBody with
    | ok rows => rfl
    | error e => rfl
  · intro hc
    have hj2 : ¬ strEndsWith (pyLower cfg.dataUrl) ".json" = true := by
      intro hb
      simp only [classifyFormat, hb, if_true] at hc
      exact SourceFormat.noConfusion hc
    unfold load_data
    rw [if_neg hmiss, if_neg hurl, if_neg (by simp [hstatus]), if_neg hj2]

/-- Witness for the amended C5: a `.JSON` URL (case-insensitive suffix) goes
through the JSON shape handling; an `.xlsx` URL goes through the CSV
parser. -/
theorem c5_format_dispatch_witness :
    (load_data ⟨"http://x/data.JSON", 300⟩ initialCache 100
        ⟨200, some (Json.arr [Json.obj [("nombre", Json.str "Foo")]]), ""⟩ true).result =
      parseJsonPayload (some (Json.arr [Json.obj [("nombre", Json.str "Foo")]])) ∧
    (load_data ⟨"http://x/tools.xlsx", 300⟩ initialCache 100
        ⟨200, none, "nombre\nFoo"⟩ true).result =
      .ok ((parseCsv "nombre\nFoo").map normalizeRow) :=
  ⟨(c5_format_dispatch ⟨"http://x/data.JSON", 300⟩ initialCache 100
      ⟨200, some (Json.arr [Json.obj [("nombre", Json.str "Foo")]]), ""⟩ true
      (by simp) (by decide) rfl).1 (by decide),
   (c5_format_dispatch ⟨"http://x/tools.xlsx", 300⟩ initialCache 100
      ⟨200, none, "nombre\nFoo"⟩ true (by simp) (by decide) rfl).2 (by decide)⟩

/-- Normalizing a JSON list whose elements are all objects succeeds and
normalizes elementwise, in order. -/
lemma mapM_normalize_objs (recs : List RawRow) :
    ((recs.map Json.obj).mapM (fun r =>
      match r with
      | Json.obj fs => Except.ok (normalizeRow fs)
      | _ => Except.error (LoadError.typeError "argument of type is not iterable"))) =
    Except.ok (recs.map normalizeRow) := by
  induction recs with
  | nil => rfl
  | cons r rs ih =>
    simp only [List.map_cons, List.mapM_cons, ih]
    rfl

/-- C6: a JSON payload that is a bare list of records normalizes to exactly
the row set of its records; wrapping the same list in an object under the
known key `"herramientas"` (the spec calls this key `"tools"`) yields
exactly the same outcome; and a payload of any other top-level shape — not a
list, and not an object holding a list under the known key — fails with the
parse error of line 67. -/
theorem c6_json_wrapped_eq_bare (recs : List RawRow) :
    jsonToRows (Json.arr (recs.map Json.obj)) = Except.ok (recs.map normalizeRow) ∧
    (∀ fs : List (String × Json),
      lookupField fs "herramientas" = some (Json.arr (recs.map Json.obj)) →
      jsonToRows (Json.obj fs) = jsonToRows (Json.arr (recs.map Json.obj))) ∧
    (∀ data : Json,
      (∀ xs, data ≠ Json.arr xs) →
      (∀ fs, data = Json.obj fs →
        ∀ v, lookupField fs "herramientas" = some v → ∀ xs, v ≠ Json.arr xs) →
      jsonToRows data = Except.error (LoadError.parseError
        "JSON inválido: se esperaba lista o clave \x27herramientas\x27")) := by
  refine ⟨mapM_normalize_objs recs, ?_, ?_⟩
  · intro fs hl
    simp only [jsonToRows, hl]
  · intro data hnarr hobj
    cases data with
    | str s => rfl
    | num n => rfl
    | bool b => rfl
    | null => rfl
    | arr xs => exact absurd rfl (hnarr xs)
    | obj fs =>
      simp only [jsonToRows]
      cases hl : lookupField fs "herramientas" with
      | none => rfl
      | some v =>
        have hv := hobj fs rfl v hl
        cases v with
        | str s => rfl
        | num n => rfl
        | bool b => rfl
        | null => rfl
        | arr xs => exact absurd rfl (hv xs)
        | obj fs2 => rfl

/-- Witness for C6: one record, bare and wrapped (with an unrelated extra
field in the wrapper), and a non-list payload rejected. -/
theorem c6_json_wrapped_eq_bare_witness :
    jsonToRows (Json.arr [Json.obj [("nombre", Json.str "Foo")]]) =
      Except.ok [normalizeRow [("nombre", Json.str "Foo")]] ∧
    jsonToRows (Json.obj [("otro", Json.null),
        ("herramientas", Json.arr [Json.obj [("nombre", Json.str "Foo")]])]) =
      jsonToRows (Json.arr [Json.obj [("nombre", Json.str "Foo")]]) ∧
    jsonToRows (Json.num 5) = Except.error (LoadError.parseError
      "JSON inválido: se esperaba lista o clave \x27herramientas\x27") := by
  have h := c6_json_wrapped_eq_bare [[("nombre", Json.str "Foo")]]
  exact ⟨h.1, h.2.1 _ rfl,
    h.2.2 (Json.num 5) (fun xs hx => Json.noConfusion hx)
      (fun fs hx => Json.noConfusion hx)⟩

/-- Joining six strings: the fold of `String.intercalate` agrees with the
plain concatenation the f-string of line 104 produces. -/
lemma intercalate_six (s a b c d e f : String) :
    String.intercalate s [a, b, c, d, e, f] =
      a ++ s ++ b ++ s ++ c ++ s ++ d ++ s ++ e ++ s ++ f := by
  simp [String.intercalate, String.intercalate.go, String.append_assoc]

/-- A line serialized by the f-string of line 104 is exactly the record's
six canonical fields, in `REQUIRED_COLS` order, joined by the pipe
delimiter. -/
lemma rowLine_eq_canonical (r : ToolRecord) :
    rowLine r = String.intercalate " | " (REQUIRED_COLS.map (getField r)) := by
  simp only [REQUIRED_COLS, List.map_cons, List.map_nil, intercalate_six]
  rfl

/-- Appending strings concatenates their character lists. -/
lemma data_append (a b : String) : (a ++ b).data = a.data ++ b.data := by
  cases a
  cases b
  rfl

/-- A string whose characters occur contiguously inside another string is
found by substring search. -/
lemma containsSubstr_of_parts (s y : String) (x z : List Char)
    (h : s.data = x ++ (y.data ++ z)) : containsSubstr s y = true := by
  unfold containsSubstr
  refine List.any_eq_true.mpr
    ⟨y.data ++ z, ?_, List.isPrefixOf_iff_prefix.mpr (List.prefix_append _ _)⟩
  rw [List.mem_tails, h]
  exact List.suffix_append _ _

/-- C8: the query operation serializes every cached row into exactly one
pipe-delimited line with the six field values in canonical order, joins the
lines with newlines, and ships the complete listing — one line per row, no
truncation, sampling or chunking — inside the user prompt of the
chat-completion request. -/
theorem c8_full_listing_serialized (rows : List ToolRecord) (model mensaje : String) :
    listado rows = String.intercalate "\n" (rows.map rowLine) ∧
    (rows.map rowLine).length = rows.length ∧
    (∀ r : ToolRecord, rowLine r =
      String.intercalate " | " (REQUIRED_COLS.map (getField r))) ∧
    containsSubstr (userPrompt rows mensaje) (listado rows) = true ∧
    (buildChatRequest model rows mensaje).messages =
      [("system", systemPrompt), ("user", userPrompt rows mensaje)] := by
  refine ⟨rfl, by simp, fun r => rowLine_eq_canonical r, ?_, rfl⟩
  apply containsSubstr_of_parts _ _ ("Estas son las herramientas:\n".data)
    (("\n\n" ++ "El usuario dice: \"" ++ mensaje ++ "\".\n\n" ++
      "Devuelve SOLO la tabla HTML (sin <html>, sin markdown).").data)
  simp [userPrompt, data_append, List.append_assoc]

/-- C9: every failing chat-completion call — a transport error, a 4xx/5xx
status raised by `raise_for_status`, an undecodable body, a malformed
response shape rejected while extracting `choices[0].message.content`, or an
extracted content that is empty — makes `/consulta` answer a 500 whose
`detail` carries the underlying error (for empty content, the
empty-model-response message); a successful call returns the extracted
content verbatim, unvalidated, as the `"html"` field. -/
theorem c9_upstream_failure_handling :
    (∀ msg, consultaLlmStep (.transportError msg) =
      .httpError 500 ("Error al consultar modelo: " ++ msg)) ∧
    (∀ status body, 400 ≤ status → status < 600 →
      consultaLlmStep (.response status body) =
        .httpError 500 ("Error al consultar modelo: HTTP " ++ toString status)) ∧
    (∀ status, ¬(400 ≤ status ∧ status < 600) →
      consultaLlmStep (.response status none) =
        .httpError 500 "Error al consultar modelo: Expecting value") ∧
    (∀ status data e, ¬(400 ≤ status ∧ status < 600) → extractHtml data = .error e →
      consultaLlmStep (.response status (some data)) =
        .httpError 500 ("Error al consultar modelo: " ++ e)) ∧
    (∀ status data html, ¬(400 ≤ status ∧ status < 600) → extractHtml data = .ok html →
      html.truthy = false →
      consultaLlmStep (.response status (some data)) =
        .httpError 500 "Error al consultar modelo: Respuesta vacía del modelo") ∧
    (∀ status data html, ¬(400 ≤ status ∧ status < 600) → extractHtml data = .ok html →
      html.truthy = true →
      consultaLlmStep (.response status (some data)) = .ok (.obj [("html", html)])) ∧
    (∀ apiKey rows outcome, apiKey ≠ "" →
      consulta apiKey (.ok rows) outcome = consultaLlmStep outcome) := by
  refine ⟨fun msg => rfl, ?_, ?_, ?_, ?_, ?_, ?_⟩
  · intro status body h1 h2
    simp only [consultaLlmStep]
    rw [if_pos ⟨h1, h2⟩]
  · intro status hs
    simp only [consultaLlmStep]
    rw [if_neg hs]
  · intro status data e hs hx
    simp only [consultaLlmStep]
    rw [if_neg hs, hx]
  · intro status data html hs hx htr
    simp only [consultaLlmStep]
    rw [if_neg hs, hx]
    simp [htr]
  · intro status data html hs hx htr
    simp only [consultaLlmStep]
    rw [if_neg hs, hx]
    simp [htr]
  · intro apiKey rows outcome hk
    unfold consulta
    rw [if_neg hk]

/-- Witness for C9 on concrete responses: a well-formed body returns its
content verbatim, an empty content yields the 500 with the
empty-model-response message, a 404 yields the raised-status 500, and a
transport failure propagates its message through `/consulta`. -/
theorem c9_upstream_failure_handling_witness :
    consultaLlmStep (.response 200 (some (Json.obj [("choices", Json.arr
        [Json.obj [("message", Json.obj [("content", Json.str "<table></table>")])]])]))) =
      .ok (Json.obj [("html", Json.str "<table></table>")]) ∧
    consultaLlmStep (.response 200 (some (Json.obj [("choices", Json.arr
        [Json.obj [("message", Json.obj [("content", Json.str "")])]])]))) =
      .httpError 500 "Error al consultar modelo: Respuesta vacía del modelo" ∧
    consultaLlmStep (.response 404 none) =
      .httpError 500 ("Error al consultar modelo: HTTP " ++ toString 404) ∧
    consulta "key" (.ok []) (.transportError "timeout") =
      .httpError 500 ("Error al consultar modelo: " ++ "timeout") :=
  ⟨(c9_upstream_failure_handling.2.2.2.2.2.1) 200
      (Json.obj [("choices", Json.arr
        [Json.obj [("message", Json.obj [("content", Json.str "<table></table>")])]])])
      (Json.str "<table></table>") (by decide) rfl (by decide),
   (c9_upstream_failure_handling.2.2.2.2.1) 200
      (Json.obj [("choices", Json.arr
        [Json.obj [("message", Json.obj [("content", Json.str "")])]])])
      (Json.str "") (by decide) rfl (by decide),
   (c9_upstream_failure_handling.2.1) 404 none (by decide) (by decide),
   ((c9_upstream_failure_handling.2.2.2.2.2.2) "key" [] (.transportError "timeout")
      (by decide)).trans (c9_upstream_failure_handling.1 "timeout")⟩

end IAacademix
